import Mathlib

/-!
Verification of the JSONL-to-CSV cloud function (src/main.py, src/config.py).

The development shallowly embeds the parts of the program that the claims
are about: the CSV validator (`validate_csv`), the code extractor
(`extract_python_code`, including the regex search it performs), the sandbox
runner (`execute_python_code` with its placeholder-path substitution), the
retry orchestrator (`generate_and_execute`, a tenacity-decorated function),
the request-level expiration parsing and the temp-file cleanup block.

External effects (the model endpoint, the subprocess, the filesystem) are
modelled as explicit oracles passed to the embedded functions, so every
definition is executable and the loop-level theorems quantify over all
oracle behaviours.

All string-processing helpers mirror the corresponding Python primitives
(`str.replace`, `str.strip`, `str.split`, `int(...)`, substring test) over
ASCII character lists; Python's extra Unicode whitespace/digit categories are
not modelled, and no claim depends on them.
-/

set_option autoImplicit false

namespace JsonlToCsv

/-! ### Python string primitives -/

/-- ASCII part of the whitespace set used by Python `str.strip()` and the
regex class `\s`. -/
def isPySpace (c : Char) : Bool :=
  c == ' ' || c == '\t' || c == '\n' || c == '\r' || c == '\x0B' || c == '\x0C'

/-- Python `str.strip()` on character lists. -/
def pyStripChars (s : List Char) : List Char :=
  ((s.dropWhile isPySpace).reverse.dropWhile isPySpace).reverse

/-- Python `str.strip()`. -/
def pyStrip (s : String) : String :=
  String.mk (pyStripChars s.data)

/-- Value of an ASCII digit character. -/
def digitVal (c : Char) : Nat := c.toNat - 48

/-- Digits of a Python integer literal after the first digit: digits with
single underscores allowed between digits (`1_0` is `10`, `1__0` is invalid). -/
def pyDigitsLoop (acc : Nat) : List Char → Option Nat
  | [] => some acc
  | '_' :: rest =>
    match rest with
    | [] => none
    | c :: rest2 => if c.isDigit then pyDigitsLoop (acc * 10 + digitVal c) rest2 else none
  | c :: rest => if c.isDigit then pyDigitsLoop (acc * 10 + digitVal c) rest else none

/-- Nonempty digit sequence of a Python integer literal. -/
def pyDigits : List Char → Option Nat
  | [] => none
  | c :: rest => if c.isDigit then pyDigitsLoop (digitVal c) rest else none

/-- Python `int(s)` on a string: strips whitespace, accepts an optional sign
followed by ASCII digits (with underscore grouping); `none` models the
`ValueError` raised on any other input. -/
def pyInt (s : String) : Option Int :=
  match pyStripChars s.data with
  | '+' :: rest => (pyDigits rest).map (fun n => (n : Int))
  | '-' :: rest => (pyDigits rest).map (fun n => -(n : Int))
  | rest => (pyDigits rest).map (fun n => (n : Int))

/-- One step bound of `pyReplaceFuel`: the fuel only has to dominate the
length of the scanned list, so the wrapper passes `s.length`. -/
def pyReplaceFuel (pat rep : List Char) : Nat → List Char → List Char
  | _, [] => []
  | 0, s => s
  | fuel + 1, c :: cs =>
    if !pat.isEmpty && pat.isPrefixOf (c :: cs) then
      rep ++ pyReplaceFuel pat rep fuel ((c :: cs).drop pat.length)
    else
      c :: pyReplaceFuel pat rep fuel cs

/-- Python `str.replace(pat, rep)` on character lists: scans left to right,
replacing non-overlapping occurrences of `pat` (nonempty in every use the
program makes). -/
def pyReplaceChars (pat rep s : List Char) : List Char :=
  pyReplaceFuel pat rep s.length s

/-- Python `s.replace(pat, rep)`. -/
def pyReplace (s pat rep : String) : String :=
  String.mk (pyReplaceChars pat.data rep.data s.data)

/-- Python `pat in s` substring test on character lists. -/
def hasSubstrChars (s pat : List Char) : Bool :=
  (List.range (s.length + 1)).any fun i => pat.isPrefixOf (s.drop i)

/-- Python `pat in s` substring test. -/
def hasSubstr (s pat : String) : Bool :=
  hasSubstrChars s.data pat.data

/-- Python `s.split(sep)` for a single-character separator, on character
lists: splitting the empty string gives one empty piece. -/
def splitLinesChars : List Char → List (List Char)
  | [] => [[]]
  | c :: cs =>
    let r := splitLinesChars cs
    if c == '\n' then [] :: r
    else
      match r with
      | [] => [[c]]
      | l :: ls => (c :: l) :: ls

/-- Python `s.split(chr(10))`, the line split used by the code extractor. -/
def pySplitLines (s : String) : List String :=
  (splitLinesChars s.data).map String.mk

/-- Python `sep.join(xs)`. -/
def pyJoin (sep : String) : List String → String
  | [] => ""
  | [x] => x
  | x :: y :: xs => x ++ sep ++ pyJoin sep (y :: xs)

/-! ### CodeExtractor: `extract_python_code` (main.py lines 146-170)

The regex `re.search` of a fenced block is modelled by an explicit
backtracking search with the engine's visiting order: leftmost start
position first; at a given start the first `\s+` is greedy (longest run
first), the group `(.*?)` is lazy (shortest first), and the trailing `\s+`
only needs some positive length inside its whitespace run. -/

/-- The literal `3 backticks + python` that opens a labeled fence. -/
def fenceOpen : List Char := "```python".data

/-- The literal three backticks that close a fence. -/
def fenceClose : List Char := "```".data

/-- Length of the maximal whitespace run at the head of the list (the set of
lengths the regex `\s+` can match there is `1..leadingWS`). -/
def leadingWS : List Char → Nat
  | [] => 0
  | c :: rest => if isPySpace c then leadingWS rest + 1 else 0

/-- Whether `\s+` followed by the closing fence matches at the head of `r2`:
some positive number of whitespace characters can be skipped so that the
closing fence literal follows. -/
def closeAfterWS (r2 : List Char) : Bool :=
  (List.range (leadingWS r2)).any fun w => fenceClose.isPrefixOf (r2.drop (w + 1))

/-- Lazy group search: the least `g` such that after taking `g` characters of
`r1` the pattern tail `\s+` + closing fence matches. -/
def findLazyG (r1 : List Char) : Option Nat :=
  (List.range (r1.length + 1)).find? fun g => closeAfterWS (r1.drop g)

/-- Group 1 of the regex `3 backticks + python`,`\s+(.*?)\s+`,`3 backticks`
matching at the head of `s`, following the engine's backtracking order. -/
def matchFenceAt (s : List Char) : Option (List Char) :=
  if fenceOpen.isPrefixOf s then
    let rest := s.drop fenceOpen.length
    let maxW := leadingWS rest
    match ((List.range maxW).map (fun i => maxW - i)).find?
        (fun w1 => (findLazyG (rest.drop w1)).isSome) with
    | some w1 =>
      match findLazyG (rest.drop w1) with
      | some g => some ((rest.drop w1).take g)
      | none => none
    | none => none
  else none

/-- `re.search` of the fence pattern: group 1 at the leftmost start position
admitting a match. -/
def searchFence (s : List Char) : Option (List Char) :=
  match (List.range (s.length + 1)).find? (fun i => (matchFenceAt (s.drop i)).isSome) with
  | some i => matchFenceAt (s.drop i)
  | none => none

/-- Line scan fallback of `extract_python_code`: toggle `in_code` on bare
fence-marker lines, keep a line when inside a fence or when it does not
contain a fence marker. -/
def scanCodeLines (in_code : Bool) : List String → List String
  | [] => []
  | line :: rest =>
    if pyStrip line == "```python" || pyStrip line == "```" then
      scanCodeLines (!in_code) rest
    else if in_code || !(hasSubstr line "```") then
      line :: scanCodeLines in_code rest
    else
      scanCodeLines in_code rest

/-- `extract_python_code(ai_response)` (main.py lines 146-170): prefer the
regex fence match, otherwise join the lines kept by the line scan, otherwise
return the raw response. -/
def extract_python_code (ai_response : String) : String :=
  match searchFence ai_response.data with
  | some mid => String.mk mid
  | none =>
    let code_lines := scanCodeLines false (pySplitLines ai_response)
    if code_lines.isEmpty then ai_response
    else pyJoin "\n" code_lines

/-! ### SandboxRunner: `execute_python_code` (main.py lines 172-205) -/

/-- Placeholder input path the generation prompt asks the model to use. -/
def INPUT_PLACEHOLDER : String := "/home/user/input.jsonl"

/-- Placeholder output path the generation prompt asks the model to use. -/
def OUTPUT_PLACEHOLDER : String := "/home/user/output.csv"

/-- The rewritten script text (main.py lines 179-180): both placeholder
paths substituted, in source order, by Python `str.replace`. -/
def modified_code (code input_path output_path : String) : String :=
  pyReplace (pyReplace code INPUT_PLACEHOLDER input_path) OUTPUT_PLACEHOLDER output_path

/-- Outcome of the `subprocess.run` call on the temp script. -/
structure ProcResult where
  returncode : Int
  stdout : String
  stderr : String
deriving DecidableEq

/-- What one `execute_python_code` call did: the script text that was written
to the temp file and executed, the returned pair, and the `finally` cleanup. -/
structure ExecOutcome where
  script : String
  success : Bool
  message : String
  tempFileDeleted : Bool
deriving DecidableEq

/-- `execute_python_code(code, input_path, output_path)` with the subprocess
modelled as an oracle from script text to either an exception message
(the `except` branch) or a process result; nonzero exit reports failure with
stderr, zero exit reports success with stdout, and the temp script file is
deleted in every case. -/
def execute_python_code (proc : String → Except String ProcResult)
    (code input_path output_path : String) : ExecOutcome :=
  let script := modified_code code input_path output_path
  match proc script with
  | .error e => ⟨script, false, e, true⟩
  | .ok r =>
    if r.returncode ≠ 0 then ⟨script, false, r.stderr, true⟩
    else ⟨script, true, r.stdout, true⟩

/-! ### ArtifactValidator: `validate_csv` (main.py lines 32-63) -/

/-- The tabular structure `pd.read_csv` loads: named columns and row-major
cells; `none` is a missing value (`NaN`), so `notna` is `Option.isSome`. -/
structure DataFrame where
  columns : List String
  rows : List (List (Option String))
deriving DecidableEq

/-- Per-cell test of main.py line 44: `notna and cell != "" and cell != " "`. -/
def cellHasData : Option String → Bool
  | none => false
  | some s => !(s == "") && !(s == " ")

/-- `has_data.any()` for the column at index `j`. -/
def colHasData (df : DataFrame) (j : Nat) : Bool :=
  df.rows.any fun row => cellHasData (row.getD j none)

/-- `pandas.DataFrame.empty`: true when either axis has length zero. -/
def DataFrame.isEmptyDf (df : DataFrame) : Bool :=
  df.rows.isEmpty || df.columns.isEmpty

/-- `validate_csv(output_path)` on the loaded dataframe: reject an empty
frame, reject when every column is blank, warn (still success) when some but
not all columns are blank, otherwise a generic success message. -/
def validate_csv (df : DataFrame) : Bool × String :=
  if df.isEmptyDf then (false, "CSV file is empty")
  else
    let columns_status := df.columns.enum.map fun p => (p.2, colHasData df p.1)
    let all_columns_empty := columns_status.all fun p => !p.2
    if all_columns_empty then (false, "All columns in CSV contain no data")
    else
      let empty_columns := (columns_status.filter fun p => !p.2).map Prod.fst
      if !empty_columns.isEmpty then
        (true, "Warning: The following columns contain no data: " ++ pyJoin ", " empty_columns)
      else (true, "All columns contain some data")

/-- The `try: df = pd.read_csv(...)` wrapper around `validate_csv`: a read
failure (oracle `Except.error`) takes the `except` branch of main.py line 63. -/
def validate_csv_at (loaded : Except String DataFrame) : Bool × String :=
  match loaded with
  | .error e => (false, "CSV validation failed: " ++ e)
  | .ok df => validate_csv df

/-! ### Config (config.py) and request-level parsing (main.py lines 328-331) -/

namespace Config

/-- `Config.MAX_RETRY_ATTEMPTS = int(os.getenv("MAX_RETRY_ATTEMPTS", "3"))`;
`none` models an unset environment variable, and an unparseable value makes
`int` raise (`Option` result). -/
def MAX_RETRY_ATTEMPTS (env : Option String) : Option Int :=
  pyInt (env.getD "3")

/-- `Config.SIGNED_URL_EXPIRATION = int(os.getenv("SIGNED_URL_EXPIRATION", "3600"))`. -/
def SIGNED_URL_EXPIRATION (env : Option String) : Option Int :=
  pyInt (env.getD "3600")

end Config

/-- main.py lines 328-331: parse the request's `signed_url_expiration` field
with `int(...)`, falling back to the configured default when the field is
absent or `int` raises `ValueError`. -/
def parse_signed_url_expiration (field : Option String) (configDefault : Int) : Int :=
  match pyInt (field.getD (toString configDefault)) with
  | some n => n
  | none => configDefault

/-! ### Temp-file cleanup (main.py lines 479-491)

The block runs after the response dictionary is assembled:
```
try:
    if os.path.exists(input_path): os.unlink(input_path)
    if os.path.exists(output_path) and response.get("gcs_path"):
        os.unlink(output_path)
except ...: pass
return jsonify(response)
```
`unlink_input_ok` / `unlink_output_ok` say whether the corresponding
`os.unlink` call succeeds; a raise is caught and aborts the rest of the
block. The result is the pair (input file still exists, output file still
exists). -/

/-- Final existence of the two temp files after the cleanup block. -/
def cleanup_temp_files (input_exists output_exists has_gcs_path
    unlink_input_ok unlink_output_ok : Bool) : Bool × Bool :=
  if input_exists && !unlink_input_ok then (input_exists, output_exists)
  else if output_exists && has_gcs_path && !unlink_output_ok then (false, output_exists)
  else if output_exists && has_gcs_path then (false, false)
  else (false, output_exists)

/-- The cleanup block together with the `return jsonify(response)` that
follows it: the response value is returned unchanged in every case. -/
def cleanup_and_respond {α : Type} (response : α) (input_exists output_exists
    has_gcs_path unlink_input_ok unlink_output_ok : Bool) : α × Bool × Bool :=
  (response, cleanup_temp_files input_exists output_exists has_gcs_path
    unlink_input_ok unlink_output_ok)

/-! ### ModelClient prompt assembly: `call_ai_model` (main.py lines 93-101) -/

/-- The combined prompt `call_ai_model` sends: base preamble + sample line +
instructions, plus the feedback clause when an `error_message` is given. -/
def full_prompt (prompt jsonl_sample : String) (error_message : Option String) : String :=
  "i am having a jsonl file its sample line is \n\n" ++ jsonl_sample ++ "\n\n" ++ prompt
    ++ match error_message with
       | some e =>
         "\n\nPrevious attempt failed with this error: " ++ e
           ++ "\nPlease modify the code to address this issue."
       | none => ""

/-! ### RetryOrchestrator: `generate_and_execute` (main.py lines 207-233)

One attempt is the undecorated function body; the tenacity decorator
`retry(stop=stop_after_attempt(N), wait=wait_fixed(2),
retry=retry_if_result(is_failure_result))` re-invokes the body with the
*same arguments* while the returned tuple satisfies `is_failure_result`,
and raises `RetryError` once `attempt_number >= N` with the predicate still
true. External behaviour of attempt `k` (model response, subprocess, file
existence, csv read) is an oracle `envs k`. -/

/-- The tuple `(clean_code, success, message, validation_success,
output_exists)` returned by one attempt. -/
structure LoopResult where
  clean_code : Option String
  success : Bool
  message : String
  validation_success : Bool
  output_exists : Bool
deriving DecidableEq

/-- `is_failure_result(result)` (main.py lines 207-212): retry when any of
the three flags is down. -/
def is_failure_result (r : LoopResult) : Bool :=
  !r.success || !r.validation_success || !r.output_exists

/-- External behaviour of one attempt: what `call_ai_model` returns for it
(`none` is a generation failure), how the subprocess behaves, whether the
output file exists afterwards, and what `pd.read_csv` finds there. -/
structure AttemptEnv where
  modelResponse : Option String
  proc : String → Except String ProcResult
  outputExists : Bool
  readCsv : Except String DataFrame

/-- The undecorated body of `generate_and_execute` (main.py lines 215-233):
generation failure short-circuits with a fixed failure tuple; otherwise
extract, execute, test file existence and validate only when execution
succeeded and the file exists. `previous_error` is the argument the body
would forward to `call_ai_model` as error feedback. -/
def generate_and_execute_body (env : AttemptEnv)
    (input_path output_path prompt first_line : String)
    (previous_error : Option String) : LoopResult :=
  match env.modelResponse with
  | none => ⟨none, false, "Failed to generate code from AI model", false, false⟩
  | some generated_code =>
    let clean_code := extract_python_code generated_code
    let ex := execute_python_code env.proc clean_code input_path output_path
    let output_exists := env.outputExists
    if ex.success && output_exists then
      let v := validate_csv_at env.readCsv
      ⟨some clean_code, ex.success, ex.message, v.1, output_exists⟩
    else
      ⟨some clean_code, ex.success, ex.message, false, output_exists⟩

/-- The fixed non-oracle arguments of one `generate_and_execute` call. -/
structure LoopParams where
  input_path : String
  output_path : String
  prompt : String
  first_line : String

/-- How a call of the decorated `generate_and_execute` terminates: a normal
return, or the `tenacity.RetryError` raised on attempt exhaustion (which
carries the last attempt's tuple). -/
inductive Outcome where
  | returned (r : LoopResult)
  | raisedRetryError (last : LoopResult)
deriving DecidableEq

/-- Whether the call returned normally. -/
def Outcome.isReturned : Outcome → Bool
  | returned _ => true
  | raisedRetryError _ => false

/-- The tenacity loop from attempt `k` with `rem` further attempts allowed
after this one: run the body; return its tuple when the retry predicate is
false; otherwise raise `RetryError` when the attempt budget is exhausted, or
recurse. Every re-invocation passes the unchanged `prev0` argument, exactly
as tenacity re-calls the wrapped function with the original arguments; the
second component records, in order, the `error_message` argument of each
model call performed. -/
def runAttempts (envs : Nat → AttemptEnv) (p : LoopParams) (prev0 : Option String) :
    Nat → Nat → Outcome × List (Option String)
  | k, 0 =>
    let r := generate_and_execute_body (envs k) p.input_path p.output_path p.prompt
      p.first_line prev0
    if is_failure_result r = false then (.returned r, [prev0])
    else (.raisedRetryError r, [prev0])
  | k, rem + 1 =>
    let r := generate_and_execute_body (envs k) p.input_path p.output_path p.prompt
      p.first_line prev0
    if is_failure_result r = false then (.returned r, [prev0])
    else
      let next := runAttempts envs p prev0 (k + 1) rem
      (next.1, prev0 :: next.2)

/-- The decorated `generate_and_execute` under
`stop_after_attempt(maxAttempts)`: attempts are numbered from 1 and
`maxAttempts - 1` retries remain after the first (tenacity performs one call
even for a cap of zero). -/
def generate_and_execute (envs : Nat → AttemptEnv) (p : LoopParams)
    (previous_error : Option String) (maxAttempts : Nat) : Outcome × List (Option String) :=
  runAttempts envs p previous_error 1 (maxAttempts - 1)

/-! ### Helper lemmas about the embedded Python primitives -/

/-- A list is a prefix (in the Boolean sense) of itself followed by anything. -/
theorem isPrefixOf_append_self (p t : List Char) : p.isPrefixOf (p ++ t) = true := by
  induction p with
  | nil => simp
  | cons a as ih => simp [List.isPrefixOf_cons₂, ih]

/-- The fuel of `pyReplaceFuel` is irrelevant once it dominates the length of
the scanned list. -/
theorem pyReplaceFuel_congr (pat rep : List Char) :
    ∀ f1 f2 s, s.length ≤ f1 → s.length ≤ f2 →
      pyReplaceFuel pat rep f1 s = pyReplaceFuel pat rep f2 s := by
  intro f1
  induction f1 with
  | zero =>
    intro f2 s h1 _
    have hs : s = [] := List.eq_nil_of_length_eq_zero (Nat.le_zero.mp h1)
    subst hs
    cases f2 <;> rfl
  | succ a ih =>
    intro f2 s h1 h2
    cases s with
    | nil => cases f2 <;> rfl
    | cons c cs =>
      cases f2 with
      | zero => simp at h2
      | succ b =>
        simp only [pyReplaceFuel]
        have hlen1 : cs.length ≤ a := by simpa using h1
        have hlen2 : cs.length ≤ b := by simpa using h2
        by_cases hg : (!pat.isEmpty && pat.isPrefixOf (c :: cs)) = true
        · rw [if_pos hg, if_pos hg]
          have hp : 1 ≤ pat.length := by
            cases pat with
            | nil => simp at hg
            | cons _ _ => simp
          have hd : ((c :: cs).drop pat.length).length = cs.length + 1 - pat.length := by
            simp [List.length_drop]
          congr 1
          exact ih b _ (by omega) (by omega)
        · rw [if_neg hg, if_neg hg]
          congr 1
          exact ih b cs hlen1 hlen2

/-- When the pattern occurs nowhere in `s`, Python `replace` returns `s`. -/
theorem pyReplaceFuel_no_occurrence (pat rep : List Char) :
    ∀ fuel s, s.length ≤ fuel →
      (∀ i, i < s.length → pat.isPrefixOf (s.drop i) = false) →
      pyReplaceFuel pat rep fuel s = s := by
  intro fuel
  induction fuel with
  | zero =>
    intro s h1 _
    have hs : s = [] := List.eq_nil_of_length_eq_zero (Nat.le_zero.mp h1)
    subst hs; rfl
  | succ a ih =>
    intro s h1 h
    cases s with
    | nil => rfl
    | cons c cs =>
      have h0 : pat.isPrefixOf (c :: cs) = false := by
        have := h 0 (by simp)
        simpa using this
      simp only [pyReplaceFuel, h0, Bool.and_false, if_neg, Bool.false_eq_true,
        not_false_eq_true]
      congr 1
      refine ih cs (by simpa using h1) ?_
      intro i hi
      have := h (i + 1) (by simpa using Nat.succ_lt_succ hi)
      simpa using this

/-- `pyReplaceChars` form of `pyReplaceFuel_no_occurrence`. -/
theorem pyReplaceChars_no_occurrence (pat rep s : List Char)
    (h : ∀ i, i < s.length → pat.isPrefixOf (s.drop i) = false) :
    pyReplaceChars pat rep s = s :=
  pyReplaceFuel_no_occurrence pat rep s.length s le_rfl h

/-- Python `replace` at the first occurrence of the pattern: the text before
it is copied, the occurrence becomes the replacement, and replacement
continues after it. -/
theorem pyReplaceFuel_append (pat rep b : List Char) (hpat : pat ≠ []) :
    ∀ a fuel, (a ++ (pat ++ b)).length ≤ fuel →
      (∀ i, i < a.length → pat.isPrefixOf ((a ++ (pat ++ b)).drop i) = false) →
      pyReplaceFuel pat rep fuel (a ++ (pat ++ b)) = a ++ (rep ++ pyReplaceChars pat rep b) := by
  intro a
  induction a with
  | nil =>
    intro fuel h1 _
    cases pat with
    | nil => exact absurd rfl hpat
    | cons p ps =>
      cases fuel with
      | zero => simp at h1
      | succ f =>
        have hpre : (p :: ps).isPrefixOf (p :: (ps ++ b)) = true := by
          have h := isPrefixOf_append_self (p :: ps) b
          exact h
        have hdrop : (p :: (ps ++ b)).drop (p :: ps).length = b := by
          have h := List.drop_left (p :: ps) b
          exact h
        have hlen : b.length ≤ f := by
          simp only [List.nil_append, List.length_cons, List.length_append] at h1
          omega
        simp only [List.nil_append, List.cons_append, List.append_eq, pyReplaceFuel,
          List.isEmpty_cons, Bool.not_false, Bool.true_and]
        rw [hpre]
        simp only [if_true, hdrop, pyReplaceChars]
        congr 1
        exact pyReplaceFuel_congr (p :: ps) rep f b.length b hlen le_rfl
  | cons x a2 ih =>
    intro fuel h1 h
    cases fuel with
    | zero => simp at h1
    | succ f =>
      have h0 : pat.isPrefixOf (x :: (a2 ++ (pat ++ b))) = false := by
        have := h 0 (by simp)
        simpa using this
      simp only [List.cons_append] at h1 ⊢
      simp only [pyReplaceFuel, h0, Bool.and_false, if_neg, Bool.false_eq_true,
        not_false_eq_true]
      congr 1
      refine ih f (by simpa using h1) ?_
      intro i hi
      have := h (i + 1) (by simpa using Nat.succ_lt_succ hi)
      simpa using this

/-- `pyReplaceChars` form of `pyReplaceFuel_append`. -/
theorem pyReplaceChars_append (pat rep a b : List Char) (hpat : pat ≠ [])
    (h : ∀ i, i < a.length → pat.isPrefixOf ((a ++ (pat ++ b)).drop i) = false) :
    pyReplaceChars pat rep (a ++ (pat ++ b)) = a ++ (rep ++ pyReplaceChars pat rep b) :=
  pyReplaceFuel_append pat rep b hpat a (a ++ (pat ++ b)).length le_rfl h

/-- The pattern does not match at any position strictly before `n` in `s`
(the occurrence at `n`, if any, is the first one). -/
def noMatchBelow (pat s : List Char) (n : Nat) : Prop :=
  ∀ i, i < n → pat.isPrefixOf (s.drop i) = false

/-- The pattern matches at no position of `s` at all. -/
def noMatchAnywhere (pat s : List Char) : Prop :=
  noMatchBelow pat s s.length

instance (pat s : List Char) (n : Nat) : Decidable (noMatchBelow pat s n) :=
  Nat.decidableBallLT n fun i _ => pat.isPrefixOf (s.drop i) = false

instance (pat s : List Char) : Decidable (noMatchAnywhere pat s) :=
  inferInstanceAs (Decidable (noMatchBelow pat s s.length))

/-! ### Helper lemmas about the retry loop -/

/-- If the loop returns normally, the returned tuple does not satisfy the
retry predicate. -/
theorem runAttempts_returned_not_failure (envs : Nat → AttemptEnv) (p : LoopParams)
    (prev : Option String) :
    ∀ rem k r, (runAttempts envs p prev k rem).1 = .returned r →
      is_failure_result r = false := by
  intro rem
  induction rem with
  | zero =>
    intro k r h
    simp only [runAttempts] at h
    split at h
    · next hf => cases h; exact hf
    · cases h
  | succ rem ih =>
    intro k r h
    simp only [runAttempts] at h
    split at h
    · next hf => cases h; exact hf
    · exact ih (k + 1) r h

/-- When every attempt fails, the loop from attempt `k` with `rem` remaining
retries raises `RetryError` carrying the tuple of attempt `k + rem`. -/
theorem runAttempts_all_fail (envs : Nat → AttemptEnv) (p : LoopParams)
    (prev : Option String)
    (hfail : ∀ k, is_failure_result (generate_and_execute_body (envs k) p.input_path
      p.output_path p.prompt p.first_line prev) = true) :
    ∀ rem k, (runAttempts envs p prev k rem).1 =
      .raisedRetryError (generate_and_execute_body (envs (k + rem)) p.input_path
        p.output_path p.prompt p.first_line prev) := by
  intro rem
  induction rem with
  | zero =>
    intro k
    simp [runAttempts, hfail k]
  | succ rem ih =>
    intro k
    have hk : k + (rem + 1) = (k + 1) + rem := by omega
    simp only [runAttempts, hfail k, Bool.true_eq_false, if_false, hk]
    exact ih (k + 1)

/-- The trace of model calls has at most `rem + 1` entries. -/
theorem runAttempts_length (envs : Nat → AttemptEnv) (p : LoopParams)
    (prev : Option String) :
    ∀ rem k, (runAttempts envs p prev k rem).2.length ≤ rem + 1 := by
  intro rem
  induction rem with
  | zero =>
    intro k
    simp only [runAttempts]
    split <;> simp
  | succ rem ih =>
    intro k
    simp only [runAttempts]
    split
    · simp
    · have := ih (k + 1)
      simp only [List.length_cons]
      omega

/-- Projection fact: whatever the subprocess does, the script text that
`execute_python_code` writes and runs is the placeholder-substituted code. -/
theorem execute_python_code_script (proc : String → Except String ProcResult)
    (code input_path output_path : String) :
    (execute_python_code proc code input_path output_path).script =
      modified_code code input_path output_path := by
  simp only [execute_python_code]
  split
  · rfl
  · split <;> rfl

/-! ### Concrete fixtures used by witnesses and counterexamples -/

/-- Fixed non-oracle arguments used by the concrete runs. -/
def paramsDemo : LoopParams := ⟨"/tmp/in.jsonl", "/tmp/out.csv", "gen", "sample"⟩

/-- Oracle on which every attempt's model call fails. -/
def envsAllFail : Nat → AttemptEnv :=
  fun _ => ⟨none, fun _ => .error "subprocess not reached", false, .error "no file"⟩

/-- Oracle on which every attempt generates code whose execution exits
nonzero with stderr `boom` and produces no output file. -/
def envsExecFail : Nat → AttemptEnv :=
  fun _ => ⟨some "x = 1", fun _ => .ok ⟨1, "", "boom"⟩, false, .error "no file"⟩

/-- Oracle for a fully successful attempt. -/
def envOk : AttemptEnv :=
  ⟨some "print(1)", fun _ => .ok ⟨0, "", ""⟩, true, .ok ⟨["a"], [[some "x"]]⟩⟩

/-- The tuple a generation failure produces (main.py line 220). -/
def failGen : LoopResult :=
  ⟨none, false, "Failed to generate code from AI model", false, false⟩

/-- The tuple the `envOk` attempt produces. -/
def resultOk : LoopResult := ⟨some "print(1)", true, "", true, true⟩

/-- The dataframe of the spec scenario: columns `[name, age, city]`, rows
`[("a","30",""),("b","","")]`. -/
def dfScenario : DataFrame :=
  ⟨["name", "age", "city"],
   [[some "a", some "30", some ""], [some "b", some "", some ""]]⟩

/-- Subprocess oracle that always exits zero. -/
def procDemo : String → Except String ProcResult := fun _ => .ok ⟨0, "", ""⟩

/-! ### Claim C1 -/

/-- Claim C1, counterexample: with every attempt failing and the default cap
of 3, the decorated `generate_and_execute` does NOT return normally — the
tenacity wrapper raises `RetryError` (carrying the last attempt's tuple), so
the claim that the orchestrator always returns the last attempt's LoopResult
after exhausting `maxAttempts` is false. -/
theorem C1_counterexample :
    (generate_and_execute envsAllFail paramsDemo none 3).1 = Outcome.raisedRetryError failGen
    ∧ ((generate_and_execute envsAllFail paramsDemo none 3).1).isReturned = false := by
  constructor <;> decide

/-- Claim C1, amended: for every `maxAttempts ≥ 1`, when no attempt
satisfies the success conjunction, `generate_and_execute` terminates by
raising `tenacity.RetryError` (whose payload is the last attempt's tuple)
rather than returning a LoopResult; the surrounding HTTP handler catches it
as an unexpected error. -/
theorem C1_theorem (envs : Nat → AttemptEnv) (p : LoopParams) (prev : Option String)
    (maxAttempts : Nat) (hmax : 1 ≤ maxAttempts)
    (hfail : ∀ k, is_failure_result (generate_and_execute_body (envs k) p.input_path
      p.output_path p.prompt p.first_line prev) = true) :
    (generate_and_execute envs p prev maxAttempts).1 =
      Outcome.raisedRetryError (generate_and_execute_body (envs maxAttempts) p.input_path
        p.output_path p.prompt p.first_line prev)
    ∧ ((generate_and_execute envs p prev maxAttempts).1).isReturned = false := by
  have h := runAttempts_all_fail envs p prev hfail (maxAttempts - 1) 1
  have harith : 1 + (maxAttempts - 1) = maxAttempts := by omega
  rw [harith] at h
  have hg : (generate_and_execute envs p prev maxAttempts).1 =
      Outcome.raisedRetryError (generate_and_execute_body (envs maxAttempts) p.input_path
        p.output_path p.prompt p.first_line prev) := h
  exact ⟨hg, by rw [hg]; rfl⟩

/-- Witness for `C1_theorem` at `maxAttempts = 1` and the all-failing oracle. -/
theorem C1_theorem_witness :
    (1 ≤ 1)
    ∧ (generate_and_execute envsAllFail paramsDemo none 1).1 = Outcome.raisedRetryError failGen
    ∧ ((generate_and_execute envsAllFail paramsDemo none 1).1).isReturned = false := by
  have hc : is_failure_result (generate_and_execute_body (envsAllFail 0) paramsDemo.input_path
      paramsDemo.output_path paramsDemo.prompt paramsDemo.first_line none) = true := by decide
  refine ⟨by decide, ?_, ?_⟩
  · have := (C1_theorem envsAllFail paramsDemo none 1 (by decide) (fun _ => hc)).1
    rw [this]
    decide
  · exact (C1_theorem envsAllFail paramsDemo none 1 (by decide) (fun _ => hc)).2

/-! ### Claim C2 -/

/-- Claim C2, code-bug evidence: tenacity re-invokes `generate_and_execute`
with its original arguments, so even though attempt 1 fails with stderr
`boom` (captured in the raised payload), the `error_message` argument of
every model call is `none` (the trace is `[none, none]`), the retry prompt
built from it contains no feedback clause, while the prompt that WOULD have
been built from `some "boom"` does contain one. -/
theorem C2_theorem :
    (generate_and_execute envsExecFail paramsDemo none 2).2 = [none, none]
    ∧ (generate_and_execute envsExecFail paramsDemo none 2).1 =
        Outcome.raisedRetryError ⟨some "x = 1", false, "boom", false, false⟩
    ∧ hasSubstr (full_prompt "gen" "sample" none) "Previous attempt failed" = false
    ∧ hasSubstr (full_prompt "gen" "sample" (some "boom")) "Previous attempt failed" = true := by
  refine ⟨by decide, by decide, ?_, ?_⟩
  · set_option maxRecDepth 4000 in decide
  · set_option maxRecDepth 8000 in decide

/-! ### Claim C3 -/

/-- Claim C3: the retry predicate is exactly the negation of the success
conjunction — on the returned tuple, and, for attempts whose model call
returned text, in terms of the attempt's execution success, artifact
existence and validation success — and a non-failing attempt makes the loop
return that attempt's tuple immediately, with no further model calls. -/
theorem C3_theorem :
    (∀ r : LoopResult,
      is_failure_result r = !(r.success && r.output_exists && r.validation_success))
    ∧ (∀ (env : AttemptEnv) (ip op pr fl : String) (prev : Option String) (g : String),
        env.modelResponse = some g →
        is_failure_result (generate_and_execute_body env ip op pr fl prev) =
          !((execute_python_code env.proc (extract_python_code g) ip op).success
            && env.outputExists && (validate_csv_at env.readCsv).1))
    ∧ (∀ (envs : Nat → AttemptEnv) (p : LoopParams) (prev : Option String) (k rem : Nat),
        is_failure_result (generate_and_execute_body (envs k) p.input_path p.output_path
          p.prompt p.first_line prev) = false →
        runAttempts envs p prev k rem =
          (Outcome.returned (generate_and_execute_body (envs k) p.input_path p.output_path
            p.prompt p.first_line prev), [prev])) := by
  refine ⟨?_, ?_, ?_⟩
  · intro r
    rcases r with ⟨c, s, m, v, o⟩
    cases s <;> cases v <;> cases o <;> rfl
  · intro env ip op pr fl prev g hg
    simp only [generate_and_execute_body, hg]
    cases hs : (execute_python_code env.proc (extract_python_code g) ip op).success <;>
      cases ho : env.outputExists <;>
        simp [is_failure_result, hs, ho]
  · intro envs p prev k rem h
    cases rem <;> simp [runAttempts, h]

/-- Witness for `C3_theorem`: a concrete tuple, a concrete successful
attempt, and a loop run that returns on attempt 1 with a one-entry trace. -/
theorem C3_theorem_witness :
    (is_failure_result ⟨some "c", true, "m", false, true⟩ = !(true && true && false))
    ∧ (envOk.modelResponse = some "print(1)"
      ∧ is_failure_result (generate_and_execute_body envOk "i" "o" "p" "s" none) =
          !((execute_python_code envOk.proc (extract_python_code "print(1)") "i" "o").success
            && envOk.outputExists && (validate_csv_at envOk.readCsv).1))
    ∧ (is_failure_result (generate_and_execute_body envOk paramsDemo.input_path
        paramsDemo.output_path paramsDemo.prompt paramsDemo.first_line none) = false
      ∧ runAttempts (fun _ => envOk) paramsDemo none 1 2 =
          (Outcome.returned (generate_and_execute_body envOk paramsDemo.input_path
            paramsDemo.output_path paramsDemo.prompt paramsDemo.first_line none), [none])) :=
  ⟨C3_theorem.1 ⟨some "c", true, "m", false, true⟩,
   ⟨rfl, C3_theorem.2.1 envOk "i" "o" "p" "s" none "print(1)" rfl⟩,
   ⟨by decide, C3_theorem.2.2 (fun _ => envOk) paramsDemo none 1 2 (by decide)⟩⟩

/-! ### Claim C4 -/

/-- Claim C4: for every `maxAttempts ≥ 1`, one invocation of the decorated
`generate_and_execute` performs at most `maxAttempts` model calls (the trace
records one `error_message` argument per model call), and the configurable
cap `Config.MAX_RETRY_ATTEMPTS` defaults to 3. -/
theorem C4_theorem (envs : Nat → AttemptEnv) (p : LoopParams) (prev : Option String)
    (maxAttempts : Nat) (hmax : 1 ≤ maxAttempts) :
    (generate_and_execute envs p prev maxAttempts).2.length ≤ maxAttempts
    ∧ Config.MAX_RETRY_ATTEMPTS none = some 3 := by
  constructor
  · have h := runAttempts_length envs p prev (maxAttempts - 1) 1
    have h2 : maxAttempts - 1 + 1 = maxAttempts := by omega
    rw [h2] at h
    exact h
  · decide

/-- Witness for `C4_theorem` at the default cap of 3. -/
theorem C4_theorem_witness :
    (1 ≤ 3)
    ∧ ((generate_and_execute envsAllFail paramsDemo none 3).2.length ≤ 3
      ∧ Config.MAX_RETRY_ATTEMPTS none = some 3) :=
  ⟨by decide, C4_theorem envsAllFail paramsDemo none 3 (by decide)⟩

/-! ### Claim C5 -/

/-- Claim C5, counterexample: on the scenario dataframe the validator does
succeed, but its message is not the claimed string — the source capitalizes
`The` in `Warning: The following columns contain no data: city`, so the
claim's exact message (lowercase `the`) is wrong. -/
theorem C5_counterexample :
    (validate_csv dfScenario).1 = true
    ∧ (validate_csv dfScenario).2 ≠ "Warning: the following columns contain no data: city" := by
  constructor <;> decide

/-- Claim C5, amended: on columns `[name, age, city]` with rows
`[("a","30",""),("b","","")]` the validator returns success with exactly the
message `Warning: The following columns contain no data: city`; per-column
blankness is `no cell is non-missing and non-blank`, and the single
non-blank value `30` makes `age` non-blank. -/
theorem C5_theorem :
    validate_csv dfScenario = (true, "Warning: The following columns contain no data: city")
    ∧ colHasData dfScenario 0 = true
    ∧ colHasData dfScenario 1 = true
    ∧ colHasData dfScenario 2 = false := by
  refine ⟨by decide, by decide, by decide, by decide⟩

/-! ### Claim C6 -/

/-- Claim C6: the script text `execute_python_code` executes is the input
code with every occurrence of the two placeholder paths substituted by the
caller-supplied paths. For a code string `a ++ IN ++ b ++ OUT ++ c` whose
placeholder occurrences are the displayed ones (the hypotheses say the
patterns match nowhere else), the executed script is exactly
`a ++ ip ++ b ++ op ++ c`. -/
theorem C6_theorem (proc : String → Except String ProcResult) (a b c ip op : String)
    (h1 : noMatchBelow INPUT_PLACEHOLDER.data
      (a.data ++ (INPUT_PLACEHOLDER.data ++ (b.data ++ (OUTPUT_PLACEHOLDER.data ++ c.data))))
      a.data.length)
    (h2 : noMatchAnywhere INPUT_PLACEHOLDER.data
      (b.data ++ (OUTPUT_PLACEHOLDER.data ++ c.data)))
    (h3 : noMatchBelow OUTPUT_PLACEHOLDER.data
      ((a.data ++ (ip.data ++ b.data)) ++ (OUTPUT_PLACEHOLDER.data ++ c.data))
      (a.data ++ (ip.data ++ b.data)).length)
    (h4 : noMatchAnywhere OUTPUT_PLACEHOLDER.data c.data) :
    (execute_python_code proc (a ++ INPUT_PLACEHOLDER ++ b ++ OUTPUT_PLACEHOLDER ++ c)
      ip op).script = a ++ ip ++ b ++ op ++ c := by
  rw [execute_python_code_script]
  apply String.ext
  have hIN : INPUT_PLACEHOLDER.data ≠ [] := by decide
  have hOUT : OUTPUT_PLACEHOLDER.data ≠ [] := by decide
  have e1 := pyReplaceChars_append INPUT_PLACEHOLDER.data ip.data a.data
    (b.data ++ (OUTPUT_PLACEHOLDER.data ++ c.data)) hIN h1
  have e2 := pyReplaceChars_no_occurrence INPUT_PLACEHOLDER.data ip.data
    (b.data ++ (OUTPUT_PLACEHOLDER.data ++ c.data)) h2
  have e3 := pyReplaceChars_append OUTPUT_PLACEHOLDER.data op.data
    (a.data ++ (ip.data ++ b.data)) c.data hOUT h3
  have e4 := pyReplaceChars_no_occurrence OUTPUT_PLACEHOLDER.data op.data c.data h4
  have hdata : (a ++ INPUT_PLACEHOLDER ++ b ++ OUTPUT_PLACEHOLDER ++ c).data =
      a.data ++ (INPUT_PLACEHOLDER.data ++ (b.data ++ (OUTPUT_PLACEHOLDER.data ++ c.data))) := by
    simp [String.data_append, List.append_assoc]
  show pyReplaceChars OUTPUT_PLACEHOLDER.data op.data
      (pyReplaceChars INPUT_PLACEHOLDER.data ip.data
        (a ++ INPUT_PLACEHOLDER ++ b ++ OUTPUT_PLACEHOLDER ++ c).data) =
    (a ++ ip ++ b ++ op ++ c).data
  rw [hdata, e1, e2]
  have hassoc : a.data ++ (ip.data ++ (b.data ++ (OUTPUT_PLACEHOLDER.data ++ c.data))) =
      (a.data ++ (ip.data ++ b.data)) ++ (OUTPUT_PLACEHOLDER.data ++ c.data) := by
    simp [List.append_assoc]
  rw [hassoc, e3, e4]
  simp [String.data_append, List.append_assoc]

/-- Witness for `C6_theorem` on a concrete generated script using both
placeholder paths once. -/
theorem C6_theorem_witness :
    (noMatchBelow INPUT_PLACEHOLDER.data
      ("f = read(".data ++ (INPUT_PLACEHOLDER.data ++ (")\nw(".data ++
        (OUTPUT_PLACEHOLDER.data ++ ")".data)))) "f = read(".data.length
    ∧ noMatchAnywhere INPUT_PLACEHOLDER.data
        (")\nw(".data ++ (OUTPUT_PLACEHOLDER.data ++ ")".data))
    ∧ noMatchBelow OUTPUT_PLACEHOLDER.data
        (("f = read(".data ++ ("in0.jsonl".data ++ ")\nw(".data)) ++
          (OUTPUT_PLACEHOLDER.data ++ ")".data))
        ("f = read(".data ++ ("in0.jsonl".data ++ ")\nw(".data)).length
    ∧ noMatchAnywhere OUTPUT_PLACEHOLDER.data ")".data)
    ∧ (execute_python_code procDemo
        ("f = read(" ++ INPUT_PLACEHOLDER ++ ")\nw(" ++ OUTPUT_PLACEHOLDER ++ ")")
        "in0.jsonl" "out0.csv").script =
      "f = read(" ++ "in0.jsonl" ++ ")\nw(" ++ "out0.csv" ++ ")" :=
  ⟨⟨by decide, by decide, by decide, by decide⟩,
   C6_theorem procDemo "f = read(" ")\nw(" ")" "in0.jsonl" "out0.csv"
     (by decide) (by decide) (by decide) (by decide)⟩

/-! ### Claim C7 -/

/-- Claim C7: `extract_python_code` is a total function on strings (it is a
Lean function, so totality is by construction), and whenever neither the
regex fence search nor the line scan yields any code content, it returns the
raw input unchanged. -/
theorem C7_theorem (s : String) (h1 : searchFence s.data = none)
    (h2 : scanCodeLines false (pySplitLines s) = []) :
    extract_python_code s = s := by
  simp [extract_python_code, h1, h2]

/-- Witness for `C7_theorem` on the malformed-fence input `3 backticks`. -/
theorem C7_theorem_witness :
    searchFence "```".data = none
    ∧ scanCodeLines false (pySplitLines "```") = []
    ∧ extract_python_code "```" = "```" :=
  ⟨by decide, by decide, C7_theorem "```" (by decide) (by decide)⟩

/-! ### Claim C8 -/

/-- Claim C8, counterexample: with the upload failed (`gcs_path` absent from
the response), both temp files existing and both unlink calls able to
succeed, the cleanup block deletes the input file but leaves the output file in
place — so the claim that both files are deleted regardless of upload
success is false. -/
theorem C8_counterexample :
    cleanup_temp_files true true false true true = (false, true) := by decide

/-- Claim C8, amended: the response value is returned unchanged whatever the
cleanup does (failures included); when the unlink calls succeed, the input
file is always deleted and the output file is deleted exactly when the
upload succeeded (`gcs_path` present in the response). -/
theorem C8_theorem {α : Type} (response : α)
    (input_exists output_exists has_gcs_path unlink_input_ok unlink_output_ok : Bool) :
    (cleanup_and_respond response input_exists output_exists has_gcs_path
      unlink_input_ok unlink_output_ok).1 = response
    ∧ (unlink_input_ok = true → unlink_output_ok = true →
        cleanup_temp_files input_exists output_exists has_gcs_path
          unlink_input_ok unlink_output_ok = (false, output_exists && !has_gcs_path)) := by
  refine ⟨rfl, ?_⟩
  intro hI hO
  subst hI; subst hO
  cases input_exists <;> cases output_exists <;> cases has_gcs_path <;> rfl

/-- Witness for `C8_theorem`: upload succeeded, both files present, both
unlinks succeed; the response is unchanged and both files end up deleted. -/
theorem C8_theorem_witness :
    (cleanup_and_respond (0 : Nat) true true true true true).1 = 0
    ∧ cleanup_temp_files true true true true true = (false, true && !true) :=
  ⟨(C8_theorem (0 : Nat) true true true true true).1,
   (C8_theorem (0 : Nat) true true true true true).2 rfl rfl⟩

/-! ### Claim C9 -/

/-- Claim C9: every tuple produced by an attempt body, and every tuple
returned normally by the decorated `generate_and_execute`, satisfies the
invariant that `validation_success` implies both `success` and
`output_exists`. -/
theorem C9_theorem :
    (∀ (env : AttemptEnv) (ip op pr fl : String) (prev : Option String),
      (generate_and_execute_body env ip op pr fl prev).validation_success = true →
      (generate_and_execute_body env ip op pr fl prev).success = true
        ∧ (generate_and_execute_body env ip op pr fl prev).output_exists = true)
    ∧ (∀ (envs : Nat → AttemptEnv) (p : LoopParams) (prev : Option String)
        (maxAttempts : Nat) (r : LoopResult) (trace : List (Option String)),
        generate_and_execute envs p prev maxAttempts = (Outcome.returned r, trace) →
        r.validation_success = true → r.success = true ∧ r.output_exists = true) := by
  constructor
  · intro env ip op pr fl prev
    cases hm : env.modelResponse with
    | none => simp [generate_and_execute_body, hm]
    | some g =>
      simp only [generate_and_execute_body, hm]
      cases hs : (execute_python_code env.proc (extract_python_code g) ip op).success <;>
        cases ho : env.outputExists <;> simp [hs, ho]
  · intro envs p prev maxAttempts r trace h _
    have h1 : (runAttempts envs p prev 1 (maxAttempts - 1)).1 = Outcome.returned r := by
      have := congrArg Prod.fst h
      simpa [generate_and_execute] using this
    have hf := runAttempts_returned_not_failure envs p prev (maxAttempts - 1) 1 r h1
    simp [is_failure_result] at hf
    exact ⟨hf.1.1, hf.2⟩

/-- Witness for `C9_theorem` on the fully successful oracle. -/
theorem C9_theorem_witness :
    ((generate_and_execute_body envOk "i" "o" "p" "s" none).validation_success = true
      ∧ (generate_and_execute_body envOk "i" "o" "p" "s" none).success = true
      ∧ (generate_and_execute_body envOk "i" "o" "p" "s" none).output_exists = true)
    ∧ (generate_and_execute (fun _ => envOk) paramsDemo none 3 =
        (Outcome.returned resultOk, [none])
      ∧ resultOk.validation_success = true
      ∧ (resultOk.success = true ∧ resultOk.output_exists = true)) :=
  ⟨⟨by decide, C9_theorem.1 envOk "i" "o" "p" "s" none (by decide)⟩,
   ⟨by decide, by decide,
    C9_theorem.2 (fun _ => envOk) paramsDemo none 3 resultOk [none] (by decide) (by decide)⟩⟩

/-! ### Claim C10 -/

/-- Claim C10: a present but unparseable `signed_url_expiration` field does
not reject the request — the handler falls back to the configured default —
and `Config.SIGNED_URL_EXPIRATION` defaults to 3600 seconds. -/
theorem C10_theorem :
    (∀ (v : String) (d : Int), pyInt v = none →
      parse_signed_url_expiration (some v) d = d)
    ∧ Config.SIGNED_URL_EXPIRATION none = some 3600 := by
  constructor
  · intro v d h
    simp [parse_signed_url_expiration, Option.getD, h]
  · decide

/-- Witness for `C10_theorem` on a concrete unparseable field value. -/
theorem C10_theorem_witness :
    pyInt "not-an-int" = none
    ∧ parse_signed_url_expiration (some "not-an-int") 3600 = 3600
    ∧ Config.SIGNED_URL_EXPIRATION none = some 3600 :=
  ⟨by decide, C10_theorem.1 "not-an-int" 3600 (by decide), C10_theorem.2⟩

end JsonlToCsv
